import Mathlib

/-! Shallow embedding of the pkpass archive validator (the `validatePass`
function of the React component), together with theorems settling the
specification claims about it.  The data model mirrors the TypeScript
interfaces and the node-forge objects the code reads: validation results,
the parsed `pass.json` payload, the PKCS#7 signed-data message with its
certificate list, and the zip archive viewed as its entry-name listing
plus the outcome of decoding the `signature` entry. -/

namespace PkpassViewer

/-- Status of a single validation check, from the `ValidationResult`
TypeScript interface: `"success" | "error" | "warning" | "info"`. -/
inductive Status where
  | success
  | error
  | warning
  | info
deriving DecidableEq

/-- One validation check result: `{ label, status, mandatory }`. -/
structure ValidationResult where
  label : String
  status : Status
  mandatory : Bool
deriving DecidableEq

/-- JSON values as far as the validator inspects them: strings, numbers,
booleans, null, arrays and objects.  Numbers are modelled as integers,
which covers every value the claims exercise. -/
inductive JVal where
  | str (s : String)
  | num (n : Int)
  | jbool (b : Bool)
  | jnull
  | arr (elems : List JVal)
  | obj (fields : List (String × JVal))

/-- JavaScript truthiness of a JSON value: empty string, zero, `false`
and `null` are falsy; arrays and objects are always truthy. -/
def truthy : JVal → Bool
  | .str s => !(s == "")
  | .num n => !(n == 0)
  | .jbool b => b
  | .jnull => false
  | .arr _ => true
  | .obj _ => true

/-- Truthiness of a possibly-absent field (`undefined` is falsy). -/
def truthyOpt : Option JVal → Bool
  | none => false
  | some v => truthy v

/-- The top-level fields of `pass.json` that `validatePass` reads; each is
`Option` because the uploaded JSON may omit it. -/
structure PassJson where
  description : Option JVal
  formatVersion : Option JVal
  organizationName : Option JVal
  passTypeIdentifier : Option JVal
  serialNumber : Option JVal
  teamIdentifier : Option JVal

/-- The strict-equality test `json.formatVersion === 1` of the code. -/
def isNumOne : Option JVal → Bool
  | some (.num n) => n == 1
  | _ => false

/-- A certificate extension as node-forge exposes it: `{ id, name, value }`. -/
structure CertExtension where
  id : String
  name : String
  value : String
deriving DecidableEq

/-- One attribute of a certificate subject or issuer (e.g. CN, OU). -/
structure CertAttribute where
  shortName : String
  value : String
deriving DecidableEq

/-- The certificate validity window; instants are modelled as integers
(millisecond timestamps, as `Date` comparisons coerce to numbers). -/
structure CertValidity where
  notBefore : Int
  notAfter : Int
deriving DecidableEq

/-- An X.509 certificate as the code reads it. -/
structure Certificate where
  extensions : List CertExtension
  subject : List CertAttribute
  issuer : List CertAttribute
  validity : CertValidity
deriving DecidableEq

/-- The decoded PKCS#7 signed-data message: the code only reads its
`certificates` array. -/
structure SignedData where
  certificates : List Certificate
deriving DecidableEq

/-- A zip archive as the validator consumes it: the list of entry names
(`zip.file(name)` is truthy exactly when `name` is listed), and the outcome
of decoding the `signature` entry bytes as a PKCS#7 message (`none` when
`forge` throws on those bytes). -/
structure Archive where
  entries : List String
  sigDecode : Option SignedData
deriving DecidableEq

/-- `zip.file(name)` truthiness: exact-name entry presence. -/
def hasEntry (a : Archive) (n : String) : Bool :=
  a.entries.contains n

/-- `first.startsWith second` on character lists. -/
def strStarts : List Char → List Char → Bool
  | _, [] => true
  | [], _ :: _ => false
  | a :: s, b :: p => a == b && strStarts s p

/-- Substring search helper: does the pattern occur at some position? -/
def hasSubAux : List Char → List Char → Bool
  | [], p => p.isEmpty
  | s@(_ :: t), p => strStarts s p || hasSubAux t p

/-- JavaScript `s.includes(pat)`: substring containment. -/
def strHasSub (s pat : String) : Bool :=
  hasSubAux s.toList pat.toList

/-- JavaScript `s.startsWith(pat)`. -/
def strStartsWithStr (s pat : String) : Bool :=
  strStarts s.toList pat.toList

/-- `OID_PASSTYPE` constant of the code. -/
def OID_PASSTYPE : String := "1.2.840.113635.100.6.1.2"

/-- `OID_TEAMID` constant of the code. -/
def OID_TEAMID : String := "1.2.840.113635.100.6.1.4"

/-- The predicate of the code's extension lookup:
`e.id === oid || e.name === oid`. -/
def extMatches (oid : String) (e : CertExtension) : Bool :=
  e.id == oid || e.name == oid

/-- `cert.extensions.find((e) => e.id === oid || e.name === oid)`. -/
def findExt (c : Certificate) (oid : String) : Option CertExtension :=
  c.extensions.find? (extMatches oid)

/-- `attrs.getField(n)`: first attribute with the given short name. -/
def getField (attrs : List CertAttribute) (n : String) : Option CertAttribute :=
  attrs.find? (fun at1 => at1.shortName == n)

/-- `cert.issuer.getField("CN")?.value || ""`. -/
def issuerCN (c : Certificate) : String :=
  match getField c.issuer "CN" with
  | some f => f.value
  | none => ""

/-- The subject Common Name, read the same way. -/
def subjectCN (c : Certificate) : String :=
  match getField c.subject "CN" with
  | some f => f.value
  | none => ""

/-- The subject Organizational Unit, read the same way. -/
def subjectOU (c : Certificate) : String :=
  match getField c.subject "OU" with
  | some f => f.value
  | none => ""

/-- The single result pushed by the `catch` branch of the signature stage. -/
def cryptoFailedResult : ValidationResult :=
  { label := "Cryptographic check failed", status := .error, mandatory := true }

/-- The five results pushed once `p7.certificates[0]` is available, in the
order the code pushes them: pass-type extension presence, team-id extension
presence, issuer contains "Apple", validity window, WWDR issuer contains
"G4". -/
def certSigResults (c : Certificate) (now : Int) : List ValidationResult :=
  [ { label := "PassTypeIdentifier in signature matches pass.json",
      status := if (findExt c OID_PASSTYPE).isSome then .success else .error,
      mandatory := true },
    { label := "TeamIdentifier in signature matches pass.json",
      status := if (findExt c OID_TEAMID).isSome then .success else .error,
      mandatory := true },
    { label := "PassKit Certificate issued by Apple",
      status := if strHasSub (issuerCN c) "Apple" then .success else .error,
      mandatory := true },
    { label := "PassKit Certificate in date",
      status := if c.validity.notBefore < now && now < c.validity.notAfter
        then .success else .error,
      mandatory := true },
    { label := "WWDR Certificate is version (G4)",
      status := if strHasSub (issuerCN c) "G4" then .success else .warning,
      mandatory := false } ]

/-- The signature stage of `validatePass`: nothing is pushed when the
`signature` entry is absent (the body is guarded by `if (sigFile)` with no
`else`); a decode failure, or an empty certificate list (which makes
`cert.extensions` throw on `undefined`), is caught and yields the single
crypto-failed result. -/
def signatureResults (a : Archive) (now : Int) : List ValidationResult :=
  if hasEntry a "signature" then
    match a.sigDecode with
    | none => [cryptoFailedResult]
    | some p7 =>
      match p7.certificates.head? with
      | none => [cryptoFailedResult]
      | some c => certSigResults c now
  else []

/-- The `structure` checklist of `validatePass`, in source order. -/
def structureResults (a : Archive) : List ValidationResult :=
  [ { label := "Has manifest.json file",
      status := if hasEntry a "manifest.json" then .success else .error,
      mandatory := true },
    { label := "Has pass.json",
      status := if hasEntry a "pass.json" then .success else .error,
      mandatory := true },
    { label := "Has signature file",
      status := if hasEntry a "signature" then .success else .error,
      mandatory := true },
    { label := "Has icon.png file",
      status := if hasEntry a "icon.png" then .success else .error,
      mandatory := true },
    { label := "Has icon@2x.png file",
      status := if hasEntry a "icon@2x.png" then .success else .error,
      mandatory := true },
    { label := "Has icon@3x.png file (not mandatory)",
      status := if hasEntry a "icon@3x.png" then .success else .info,
      mandatory := false } ]

/-- The `keys` checklist of `validatePass`, in source order. -/
def keysResults (j : PassJson) : List ValidationResult :=
  [ { label := "Has description",
      status := if truthyOpt j.description then .success else .error,
      mandatory := true },
    { label := "Has formatVersion with value of 1",
      status := if isNumOne j.formatVersion then .success else .error,
      mandatory := true },
    { label := "Has organizationName",
      status := if truthyOpt j.organizationName then .success else .error,
      mandatory := true },
    { label := "Has passTypeIdentifier",
      status := if truthyOpt j.passTypeIdentifier then .success else .error,
      mandatory := true },
    { label := "Has serialNumber",
      status := if truthyOpt j.serialNumber then .success else .error,
      mandatory := true },
    { label := "Has teamIdentifier",
      status := if truthyOpt j.teamIdentifier then .success else .error,
      mandatory := true } ]

/-- The report set by `setResults`: the three category sequences. -/
structure Report where
  structureCat : List ValidationResult
  keysCat : List ValidationResult
  signatureCat : List ValidationResult
deriving DecidableEq

/-- The whole of `validatePass`: the three checker stages combined. -/
def validatePass (a : Archive) (j : PassJson) (now : Int) : Report :=
  { structureCat := structureResults a,
    keysCat := keysResults j,
    signatureCat := signatureResults a now }

/-- All results of a report, in category order. -/
def allResults (r : Report) : List ValidationResult :=
  r.structureCat ++ r.keysCat ++ r.signatureCat

/-! ### Spec-side definitions

The following definitions follow the specification's words (section 4.4),
not the source; they exist only to state the claims that refer to the
spec's richer signature-verification algorithm, so that those claims can
be compared against what the code actually computes. -/

/-- Modelled from the spec (step 5): the Apple Pass Type Identifier
extension OID the spec names, `1.2.840.113635.100.6.1.16`. -/
def SPEC_OID_PASSTYPE : String := "1.2.840.113635.100.6.1.16"

/-- Modelled from the spec (step 5): strip the 2-byte tag/length prefix
from the raw extension string when its length exceeds 2, else use it
as-is. -/
def decodeAppleExtensionString (raw : String) : String :=
  if 2 < raw.length then (raw.toList.drop 2).asString else raw

/-- Modelled from the spec (step 4): the Pass-Type certificate is the one
whose subject CN starts with "Pass Type ID:" or "Pass Type ID with NFC:". -/
def specPassTypeCert (p7 : SignedData) : Option Certificate :=
  p7.certificates.find? (fun c =>
    strStartsWithStr (subjectCN c) "Pass Type ID:" ||
    strStartsWithStr (subjectCN c) "Pass Type ID with NFC:")

/-- Modelled from the spec (step 5): the pass-type-identifier claim decoded
from the Pass-Type certificate's Apple extension, when both exist. -/
def specPassTypeClaim (p7 : SignedData) : Option String :=
  (specPassTypeCert p7).bind fun c =>
    (findExt c SPEC_OID_PASSTYPE).map fun e => decodeAppleExtensionString e.value

/-- Modelled from the spec (step 10): WWDR generation inference over the
OU value and the issuer CN, G4 before G3, else "Unknown". -/
def specInferWWDRGeneration (ou cn : String) : String :=
  if strHasSub ou "G4" || strHasSub cn "G4" then "G4"
  else if strHasSub ou "G3" || strHasSub cn "G3" then "G3"
  else "Unknown"

/-! ### Concrete fixtures used by counterexamples and witnesses -/

/-- A certificate carrying both Apple OID extensions, issued by an Apple
CN without a generation marker; its subject CN is a company name, so the
spec's Pass-Type-certificate search finds nothing. -/
def certA : Certificate :=
  { extensions :=
      [ { id := OID_PASSTYPE, name := "", value := "xxpass.com.other" },
        { id := OID_TEAMID, name := "", value := "xxZZ99887766" } ],
    subject :=
      [ { shortName := "CN", value := "Example Corp" },
        { shortName := "OU", value := "TEAM1234XY" } ],
    issuer :=
      [ { shortName := "CN",
          value := "Apple Worldwide Developer Relations Certification Authority" } ],
    validity := { notBefore := 0, notAfter := 1000 } }

/-- The signed-data message bundling just `certA`. -/
def p7A : SignedData := { certificates := [certA] }

/-- An archive with all six checklist entries whose signature decodes
to `p7A`. -/
def archiveA : Archive :=
  { entries :=
      ["manifest.json", "pass.json", "signature", "icon.png",
       "icon@2x.png", "icon@3x.png"],
    sigDecode := some p7A }

/-- A fully-populated descriptor whose identifiers do not match anything
embedded in `certA`. -/
def jsonA : PassJson :=
  { description := some (.str "Demo pass"),
    formatVersion := some (.num 1),
    organizationName := some (.str "Example Corp"),
    passTypeIdentifier := some (.str "pass.com.example.a"),
    serialNumber := some (.str "SN-001"),
    teamIdentifier := some (.str "OTHERTEAM0") }

/-- Like `certA` but with an issuer CN carrying the G4 marker, so that
every signature check including the WWDR one reports success. -/
def certG4 : Certificate :=
  { extensions :=
      [ { id := OID_PASSTYPE, name := "", value := "xxpass.com.other" },
        { id := OID_TEAMID, name := "", value := "xxZZ99887766" } ],
    subject :=
      [ { shortName := "CN", value := "Example Corp" },
        { shortName := "OU", value := "TEAM1234XY" } ],
    issuer :=
      [ { shortName := "CN",
          value := "Apple Worldwide Developer Relations CA - G4" } ],
    validity := { notBefore := 0, notAfter := 1000 } }

/-- The signed-data message bundling just `certG4`. -/
def p7G4 : SignedData := { certificates := [certG4] }

/-- An archive with all six checklist entries whose signature decodes
to `p7G4`; `validatePass` on it with `jsonOk` reports success everywhere. -/
def archiveOk : Archive :=
  { entries :=
      ["manifest.json", "pass.json", "signature", "icon.png",
       "icon@2x.png", "icon@3x.png"],
    sigDecode := some p7G4 }

/-- A fully-populated descriptor. -/
def jsonOk : PassJson :=
  { description := some (.str "Demo pass"),
    formatVersion := some (.num 1),
    organizationName := some (.str "Example Corp"),
    passTypeIdentifier := some (.str "pass.com.example.a"),
    serialNumber := some (.str "SN-001"),
    teamIdentifier := some (.str "TEAM1234XY") }

/-- `jsonOk` with only `passTypeIdentifier` changed to another non-empty
string. -/
def jsonOkMut : PassJson :=
  { jsonOk with passTypeIdentifier := some (.str "pass.com.example.b") }

/-- An archive missing exactly the `signature` entry. -/
def archiveNoSig : Archive :=
  { entries :=
      ["manifest.json", "pass.json", "icon.png", "icon@2x.png", "icon@3x.png"],
    sigDecode := none }

/-- A certificate whose subject OU carries "G4" while the issuer CN
carries "G3" only. -/
def certOuG4 : Certificate :=
  { extensions :=
      [ { id := OID_PASSTYPE, name := "", value := "xxpass.com.other" },
        { id := OID_TEAMID, name := "", value := "xxZZ99887766" } ],
    subject :=
      [ { shortName := "CN", value := "Example Corp" },
        { shortName := "OU", value := "Engineering G4" } ],
    issuer :=
      [ { shortName := "CN",
          value := "Apple Worldwide Developer Relations Certification Authority G3" } ],
    validity := { notBefore := 0, notAfter := 1000 } }

/-- The signed-data message bundling just `certOuG4`. -/
def p7OuG4 : SignedData := { certificates := [certOuG4] }

/-- An archive with all six checklist entries whose signature decodes
to `p7OuG4`. -/
def archiveOuG4 : Archive :=
  { entries :=
      ["manifest.json", "pass.json", "signature", "icon.png",
       "icon@2x.png", "icon@3x.png"],
    sigDecode := some p7OuG4 }

/-! ### Helper lemmas -/

theorem ifSE_eq_success (c : Bool) :
    ((if c then Status.success else Status.error) = Status.success) ↔ c = true := by
  cases c <;> simp

theorem ifSE_eq_error (c : Bool) :
    ((if c then Status.success else Status.error) = Status.error) ↔ c = false := by
  cases c <;> simp

theorem ifSW_eq_success (c : Bool) :
    ((if c then Status.success else Status.warning) = Status.success) ↔ c = true := by
  cases c <;> simp

theorem ifSW_eq_warning (c : Bool) :
    ((if c then Status.success else Status.warning) = Status.warning) ↔ c = false := by
  cases c <;> simp

theorem isNumOne_iff (v : Option JVal) :
    isNumOne v = true ↔ v = some (JVal.num 1) := by
  cases v with
  | none => simp [isNumOne]
  | some w => cases w <;> simp [isNumOne]

theorem findExt_isSome_iff (c : Certificate) (oid : String) :
    (findExt c oid).isSome = true ↔
      ∃ e ∈ c.extensions, e.id = oid ∨ e.name = oid := by
  simp [findExt, List.find?_isSome, extMatches]

/-! ### C6: the formatVersion schema check -/

/-- C6: the Schema Checker's formatVersion result is mandatory, has status
success exactly when `formatVersion` is the JSON integer 1, and status
error otherwise (in particular when the key is absent or holds the string
"1"). -/
theorem C6_formatVersionCheck (j : PassJson) :
    ∃ res, (keysResults j)[1]? = some res ∧
      res.label = "Has formatVersion with value of 1" ∧
      res.mandatory = true ∧
      (res.status = Status.success ↔ j.formatVersion = some (JVal.num 1)) ∧
      (res.status = Status.error ↔ j.formatVersion ≠ some (JVal.num 1)) := by
  refine ⟨{ label := "Has formatVersion with value of 1",
            status := if isNumOne j.formatVersion then Status.success else Status.error,
            mandatory := true }, by simp [keysResults], rfl, rfl, ?_, ?_⟩
  · rw [ifSE_eq_success, isNumOne_iff]
  · rw [ifSE_eq_error, Bool.eq_false_iff, Ne, isNumOne_iff]

/-! ### C7: the structural checklist -/

/-- The spec's characterization of one structural checklist item: success
when present, error when absent and mandatory, info when absent and
optional. -/
def structSpecStatus (present m : Bool) : Status :=
  if present then .success else if m then .error else .info

/-- The fixed ordered checklist: label, entry name, mandatory flag. -/
def structChecklist : List (String × String × Bool) :=
  [ ("Has manifest.json file", "manifest.json", true),
    ("Has pass.json", "pass.json", true),
    ("Has signature file", "signature", true),
    ("Has icon.png file", "icon.png", true),
    ("Has icon@2x.png file", "icon@2x.png", true),
    ("Has icon@3x.png file (not mandatory)", "icon@3x.png", false) ]

theorem structSpecStatus_mand (p : Bool) :
    structSpecStatus p true = if p then Status.success else Status.error := by
  cases p <;> rfl

theorem structSpecStatus_opt (p : Bool) :
    structSpecStatus p false = if p then Status.success else Status.info := by
  cases p <;> rfl

/-- C7: the Structural Checker emits one result per checklist item, in the
fixed order manifest.json, pass.json, signature, icon.png, icon@2x.png,
icon@3x.png; each status is success when the exactly-named entry is
present, error when absent and mandatory, info when absent and optional;
only the optional icon@3x.png item carries mandatory = false. -/
theorem C7_structuralChecklist (a : Archive) :
    structureResults a = structChecklist.map (fun it =>
      { label := it.1, status := structSpecStatus (hasEntry a it.2.1) it.2.2,
        mandatory := it.2.2 }) := by
  simp [structureResults, structChecklist, structSpecStatus_mand, structSpecStatus_opt]

/-! ### C10: signature-category noninterference -/

/-- C10: for a fixed archive and time, the signature category of the report
is the same for any two descriptors; the Signature Verifier never reads the
parsed pass.json. -/
theorem C10_signatureNoninterference (a : Archive) (now : Int) (j1 j2 : PassJson) :
    (validatePass a j1 now).signatureCat = (validatePass a j2 now).signatureCat := rfl

/-! ### C3: archive missing the signature entry -/

/-- C3 counterexample: on an archive missing exactly the `signature` entry,
the structure category does mark the signature item error, but the
signature category is empty rather than containing one
"cryptographic check failed" result. -/
theorem C3_counterexample :
    ((validatePass archiveNoSig jsonOk 0).structureCat[2]?.map (fun r => r.status))
        = some Status.error ∧
    (validatePass archiveNoSig jsonOk 0).signatureCat = [] := by decide

/-- C3 (amended): when the `signature` entry is absent, the structure
category marks the signature item error and the Signature Verifier emits
nothing at all (its stage is guarded by `if (sigFile)` with no else), so
the signature category is empty. -/
theorem C3_missingSignature_amended (a : Archive) (j : PassJson) (now : Int)
    (h : hasEntry a "signature" = false) :
    (validatePass a j now).structureCat[2]? =
      some { label := "Has signature file", status := Status.error, mandatory := true } ∧
    (validatePass a j now).signatureCat = [] := by
  constructor
  · simp [validatePass, structureResults, h]
  · simp [validatePass, signatureResults, h]

/-- Witness for C3 (amended) at the concrete no-signature archive. -/
theorem C3_missingSignature_amended_witness :
    hasEntry archiveNoSig "signature" = false ∧
    ((validatePass archiveNoSig jsonOk 0).structureCat[2]? =
      some { label := "Has signature file", status := Status.error, mandatory := true } ∧
    (validatePass archiveNoSig jsonOk 0).signatureCat = []) :=
  ⟨by decide, C3_missingSignature_amended archiveNoSig jsonOk 0 (by decide)⟩

/-! ### C4: mutating only passTypeIdentifier -/

/-- C4 counterexample: a concrete archive/descriptor pair on which every
result of the whole report is success, yet changing only
`passTypeIdentifier` (to another non-empty string, signature bytes fixed)
changes no result at all — the pass-type check does not flip to error. -/
theorem C4_counterexample :
    (∀ r ∈ allResults (validatePass archiveOk jsonOk 100), r.status = Status.success) ∧
    jsonOkMut = { jsonOk with passTypeIdentifier := some (JVal.str "pass.com.example.b") } ∧
    validatePass archiveOk jsonOkMut 100 = validatePass archiveOk jsonOk 100 :=
  ⟨by decide, rfl, by decide⟩

/-- C4 (amended): changing only the descriptor's `passTypeIdentifier` to a
value of the same truthiness changes no result in any category of the
report; in particular the Signature Verifier's pass-type check never reads
the descriptor. -/
theorem C4_passTypeMutation_amended (a : Archive) (j : PassJson) (now : Int)
    (v : Option JVal) (h : truthyOpt v = truthyOpt j.passTypeIdentifier) :
    validatePass a { j with passTypeIdentifier := v } now = validatePass a j now := by
  simp [validatePass, keysResults, h]

/-- Witness for C4 (amended) at the concrete all-success input. -/
theorem C4_passTypeMutation_amended_witness :
    truthyOpt (some (JVal.str "pass.com.example.b")) = truthyOpt jsonOk.passTypeIdentifier ∧
    validatePass archiveOk { jsonOk with passTypeIdentifier := some (JVal.str "pass.com.example.b") } 100
      = validatePass archiveOk jsonOk 100 :=
  ⟨rfl, C4_passTypeMutation_amended archiveOk jsonOk 100 (some (JVal.str "pass.com.example.b")) rfl⟩

/-! ### C1: the pass-type cross-check -/

/-- C1 counterexample: a decodable signature whose certificate set contains
no Pass-Type certificate (so the spec's decoded claim is absent and cannot
be string-equal to the descriptor's `passTypeIdentifier`), yet the
pass-type result is success, because the code only tests presence of an
extension with OID 1.2.840.113635.100.6.1.2 and never compares values. -/
theorem C1_counterexample :
    ¬ (((validatePass archiveA jsonA 100).signatureCat[0]?.map (fun r => r.status))
          = some Status.success ↔
        specPassTypeClaim p7A = some "pass.com.example.a") ∧
    jsonA.passTypeIdentifier = some (JVal.str "pass.com.example.a") ∧
    archiveA.sigDecode = some p7A :=
  ⟨by decide, rfl, rfl⟩

/-- C1 (amended): for a decodable signature, the pass-type result is
mandatory and has status success exactly when the first bundled certificate
carries an extension whose id or name equals "1.2.840.113635.100.6.1.2";
the descriptor's `passTypeIdentifier` is never consulted. -/
theorem C1_passTypeCheck_amended (a : Archive) (j : PassJson) (p7 : SignedData)
    (c : Certificate) (cs : List Certificate) (now : Int)
    (hs : hasEntry a "signature" = true)
    (hd : a.sigDecode = some p7)
    (hc : p7.certificates = c :: cs) :
    ∃ res, (validatePass a j now).signatureCat[0]? = some res ∧
      res.label = "PassTypeIdentifier in signature matches pass.json" ∧
      res.mandatory = true ∧
      (res.status = Status.success ↔
        ∃ e ∈ c.extensions, e.id = OID_PASSTYPE ∨ e.name = OID_PASSTYPE) ∧
      (res.status = Status.error ↔
        ¬ ∃ e ∈ c.extensions, e.id = OID_PASSTYPE ∨ e.name = OID_PASSTYPE) := by
  refine ⟨{ label := "PassTypeIdentifier in signature matches pass.json",
            status := if (findExt c OID_PASSTYPE).isSome then Status.success else Status.error,
            mandatory := true },
      by simp [validatePass, signatureResults, hs, hd, hc, certSigResults],
      rfl, rfl, ?_, ?_⟩
  · rw [ifSE_eq_success, findExt_isSome_iff]
  · rw [ifSE_eq_error, Bool.eq_false_iff, Ne, findExt_isSome_iff]

/-- Witness for C1 (amended) at the concrete fixture. -/
theorem C1_passTypeCheck_amended_witness :
    hasEntry archiveA "signature" = true ∧
    ∃ res, (validatePass archiveA jsonA 100).signatureCat[0]? = some res ∧
      res.label = "PassTypeIdentifier in signature matches pass.json" ∧
      res.mandatory = true ∧
      (res.status = Status.success ↔
        ∃ e ∈ certA.extensions, e.id = OID_PASSTYPE ∨ e.name = OID_PASSTYPE) ∧
      (res.status = Status.error ↔
        ¬ ∃ e ∈ certA.extensions, e.id = OID_PASSTYPE ∨ e.name = OID_PASSTYPE) :=
  ⟨by decide, C1_passTypeCheck_amended archiveA jsonA p7A certA [] 100 (by decide) rfl rfl⟩

/-! ### C2: the team-identifier cross-check -/

/-- C2 counterexample: the signer certificate's subject OU is
"TEAM1234XY" while the descriptor declares teamIdentifier "OTHERTEAM0",
yet the team-identifier result is success, because the code only tests
presence of an extension with OID 1.2.840.113635.100.6.1.4 and never reads
the OU or the descriptor. -/
theorem C2_counterexample :
    ¬ (((validatePass archiveA jsonA 100).signatureCat[1]?.map (fun r => r.status))
          = some Status.success ↔
        subjectOU certA = "OTHERTEAM0") ∧
    jsonA.teamIdentifier = some (JVal.str "OTHERTEAM0") ∧
    archiveA.sigDecode = some p7A :=
  ⟨by decide, rfl, rfl⟩

/-- C2 (amended): for a decodable signature, the team-identifier result is
mandatory and has status success exactly when the first bundled certificate
carries an extension whose id or name equals "1.2.840.113635.100.6.1.4";
neither the subject OU nor the descriptor's `teamIdentifier` is consulted. -/
theorem C2_teamIdCheck_amended (a : Archive) (j : PassJson) (p7 : SignedData)
    (c : Certificate) (cs : List Certificate) (now : Int)
    (hs : hasEntry a "signature" = true)
    (hd : a.sigDecode = some p7)
    (hc : p7.certificates = c :: cs) :
    ∃ res, (validatePass a j now).signatureCat[1]? = some res ∧
      res.label = "TeamIdentifier in signature matches pass.json" ∧
      res.mandatory = true ∧
      (res.status = Status.success ↔
        ∃ e ∈ c.extensions, e.id = OID_TEAMID ∨ e.name = OID_TEAMID) ∧
      (res.status = Status.error ↔
        ¬ ∃ e ∈ c.extensions, e.id = OID_TEAMID ∨ e.name = OID_TEAMID) := by
  refine ⟨{ label := "TeamIdentifier in signature matches pass.json",
            status := if (findExt c OID_TEAMID).isSome then Status.success else Status.error,
            mandatory := true },
      by simp [validatePass, signatureResults, hs, hd, hc, certSigResults],
      rfl, rfl, ?_, ?_⟩
  · rw [ifSE_eq_success, findExt_isSome_iff]
  · rw [ifSE_eq_error, Bool.eq_false_iff, Ne, findExt_isSome_iff]

/-- Witness for C2 (amended) at the concrete fixture. -/
theorem C2_teamIdCheck_amended_witness :
    hasEntry archiveA "signature" = true ∧
    ∃ res, (validatePass archiveA jsonA 100).signatureCat[1]? = some res ∧
      res.label = "TeamIdentifier in signature matches pass.json" ∧
      res.mandatory = true ∧
      (res.status = Status.success ↔
        ∃ e ∈ certA.extensions, e.id = OID_TEAMID ∨ e.name = OID_TEAMID) ∧
      (res.status = Status.error ↔
        ¬ ∃ e ∈ certA.extensions, e.id = OID_TEAMID ∨ e.name = OID_TEAMID) :=
  ⟨by decide, C2_teamIdCheck_amended archiveA jsonA p7A certA [] 100 (by decide) rfl rfl⟩

/-! ### C8: the validity-window check -/

/-- C8: for a decodable signature, the validity-window result is mandatory
and has status success exactly when the current time lies strictly between
the certificate's notBefore and notAfter; a time equal to either bound
yields error. -/
theorem C8_validityWindow (a : Archive) (j : PassJson) (p7 : SignedData)
    (c : Certificate) (cs : List Certificate) (now : Int)
    (hs : hasEntry a "signature" = true)
    (hd : a.sigDecode = some p7)
    (hc : p7.certificates = c :: cs) :
    ∃ res, (validatePass a j now).signatureCat[3]? = some res ∧
      res.label = "PassKit Certificate in date" ∧
      res.mandatory = true ∧
      (res.status = Status.success ↔
        (c.validity.notBefore < now ∧ now < c.validity.notAfter)) ∧
      (res.status = Status.error ↔
        ¬ (c.validity.notBefore < now ∧ now < c.validity.notAfter)) := by
  refine ⟨{ label := "PassKit Certificate in date",
            status := if c.validity.notBefore < now && now < c.validity.notAfter
              then Status.success else Status.error,
            mandatory := true },
      by simp [validatePass, signatureResults, hs, hd, hc, certSigResults],
      rfl, rfl, ?_, ?_⟩
  · rw [ifSE_eq_success]
    simp
  · rw [ifSE_eq_error, Bool.eq_false_iff]
    simp

/-- Witness for C8 at the concrete fixture, at a time inside the window. -/
theorem C8_validityWindow_witness :
    hasEntry archiveOk "signature" = true ∧
    ∃ res, (validatePass archiveOk jsonOk 100).signatureCat[3]? = some res ∧
      res.label = "PassKit Certificate in date" ∧
      res.mandatory = true ∧
      (res.status = Status.success ↔
        (certG4.validity.notBefore < 100 ∧ (100 : Int) < certG4.validity.notAfter)) ∧
      (res.status = Status.error ↔
        ¬ (certG4.validity.notBefore < 100 ∧ (100 : Int) < certG4.validity.notAfter)) :=
  ⟨by decide, C8_validityWindow archiveOk jsonOk p7G4 certG4 [] 100 (by decide) rfl rfl⟩

/-! ### Substring characterization -/

theorem strStarts_pat_nil (s : List Char) : strStarts s [] = true := by
  cases s <;> rfl

theorem strStarts_iff (p : List Char) :
    ∀ s, strStarts s p = true ↔ ∃ r, s = p ++ r := by
  induction p with
  | nil =>
      intro s
      simp [strStarts_pat_nil]
  | cons b p ih =>
      intro s
      cases s with
      | nil => simp [strStarts]
      | cons a s =>
          simp only [strStarts, Bool.and_eq_true, beq_iff_eq, ih,
            List.cons_append, List.cons.injEq]
          constructor
          · rintro ⟨hab, r, hr⟩
            exact ⟨r, hab, hr⟩
          · rintro ⟨r, hab, hr⟩
            exact ⟨hab, r, hr⟩

theorem hasSubAux_iff (p : List Char) :
    ∀ s, hasSubAux s p = true ↔ ∃ l r, s = l ++ p ++ r := by
  intro s
  induction s with
  | nil =>
      simp only [hasSubAux, List.isEmpty_iff]
      constructor
      · intro h
        exact ⟨[], [], by simp [h]⟩
      · rintro ⟨l, r, h⟩
        have h3 := List.append_eq_nil.mp h.symm
        exact (List.append_eq_nil.mp h3.1).2
  | cons a t ih =>
      simp only [hasSubAux, Bool.or_eq_true, strStarts_iff, ih]
      constructor
      · rintro (⟨r, hr⟩ | ⟨l, r, hr⟩)
        · exact ⟨[], r, by simp [hr]⟩
        · exact ⟨a :: l, r, by simp [hr]⟩
      · rintro ⟨l, r, hr⟩
        cases l with
        | nil =>
            exact Or.inl ⟨r, by simpa using hr⟩
        | cons x l =>
            rcases (by simpa using hr : a = x ∧ t = l ++ p ++ r) with ⟨-, ht⟩
            exact Or.inr ⟨l, r, ht⟩

theorem strHasSub_iff (s pat : String) :
    strHasSub s pat = true ↔ ∃ l r, s.toList = l ++ pat.toList ++ r :=
  hasSubAux_iff _ _

/-! ### C5: the WWDR-generation result -/

/-- C5 counterexample: the signer OU contains "G4" and the issuer CN
contains "G3", so the spec infers generation "G4" (not "Unknown") and
demands status success; the code reports status warning because it only
looks for "G4" in the issuer CN. -/
theorem C5_counterexample :
    specInferWWDRGeneration (subjectOU certOuG4) (issuerCN certOuG4) = "G4" ∧
    specInferWWDRGeneration (subjectOU certOuG4) (issuerCN certOuG4) ≠ "Unknown" ∧
    ((validatePass archiveOuG4 jsonOk 100).signatureCat[4]?.map (fun r => r.status))
        = some Status.warning := by decide

/-- C5 (amended): for a decodable signature, the WWDR result is
non-mandatory with the fixed label "WWDR Certificate is version (G4)";
its status is success exactly when the issuer CN contains the substring
"G4", and warning otherwise; the subject OU and the substring "G3" play
no role. -/
theorem C5_wwdrCheck_amended (a : Archive) (j : PassJson) (p7 : SignedData)
    (c : Certificate) (cs : List Certificate) (now : Int)
    (hs : hasEntry a "signature" = true)
    (hd : a.sigDecode = some p7)
    (hc : p7.certificates = c :: cs) :
    ∃ res, (validatePass a j now).signatureCat[4]? = some res ∧
      res.label = "WWDR Certificate is version (G4)" ∧
      res.mandatory = false ∧
      (res.status = Status.success ↔
        ∃ l r, (issuerCN c).toList = l ++ ("G4").toList ++ r) ∧
      (res.status = Status.warning ↔
        ¬ ∃ l r, (issuerCN c).toList = l ++ ("G4").toList ++ r) := by
  refine ⟨{ label := "WWDR Certificate is version (G4)",
            status := if strHasSub (issuerCN c) "G4" then Status.success else Status.warning,
            mandatory := false },
      by simp [validatePass, signatureResults, hs, hd, hc, certSigResults],
      rfl, rfl, ?_, ?_⟩
  · rw [ifSW_eq_success, strHasSub_iff]
  · rw [ifSW_eq_warning, Bool.eq_false_iff, Ne, strHasSub_iff]

/-- Witness for C5 (amended) at the concrete fixture with a G4 issuer. -/
theorem C5_wwdrCheck_amended_witness :
    hasEntry archiveOk "signature" = true ∧
    ∃ res, (validatePass archiveOk jsonOk 100).signatureCat[4]? = some res ∧
      res.label = "WWDR Certificate is version (G4)" ∧
      res.mandatory = false ∧
      (res.status = Status.success ↔
        ∃ l r, (issuerCN certG4).toList = l ++ ("G4").toList ++ r) ∧
      (res.status = Status.warning ↔
        ¬ ∃ l r, (issuerCN certG4).toList = l ++ ("G4").toList ++ r) :=
  ⟨by decide, C5_wwdrCheck_amended archiveOk jsonOk p7G4 certG4 [] 100 (by decide) rfl rfl⟩

/-! ### C9: mandatory failures always surface as error -/

/-- A single result respects the invariant: if it is mandatory its status
is success or error. -/
def mandatoryOk (r : ValidationResult) : Bool :=
  !r.mandatory || (r.status == Status.success || r.status == Status.error)

theorem mandatoryOk_ifSE (l : String) (c : Bool) :
    mandatoryOk
      { label := l, status := if c then Status.success else Status.error,
        mandatory := true } = true := by
  cases c <;> rfl

theorem mandatoryOk_ifSEProp (l : String) (p : Prop) [Decidable p] :
    mandatoryOk
      { label := l, status := if p then Status.success else Status.error,
        mandatory := true } = true := by
  by_cases h : p <;> simp [mandatoryOk, h]

theorem mandatoryOk_nonMand (l : String) (s : Status) :
    mandatoryOk { label := l, status := s, mandatory := false } = true := rfl

theorem structResults_mandatoryOk (a : Archive) :
    (structureResults a).all mandatoryOk = true := by
  simp [structureResults, mandatoryOk_ifSE, mandatoryOk_nonMand]

theorem keysResults_mandatoryOk (j : PassJson) :
    (keysResults j).all mandatoryOk = true := by
  simp [keysResults, mandatoryOk_ifSE]

theorem sigResults_mandatoryOk (a : Archive) (now : Int) :
    (signatureResults a now).all mandatoryOk = true := by
  unfold signatureResults
  cases hasEntry a "signature"
  · simp
  · cases a.sigDecode with
    | none => simp [cryptoFailedResult, mandatoryOk]
    | some p7 =>
        obtain ⟨certs⟩ := p7
        cases certs with
        | nil => simp [cryptoFailedResult, mandatoryOk]
        | cons c cs =>
            simp [certSigResults, mandatoryOk_ifSE, mandatoryOk_ifSEProp,
              mandatoryOk_nonMand]

/-- C9: every result of every produced report that is mandatory has status
success or error, never warning or info — a failing mandatory check always
surfaces as error. -/
theorem C9_mandatoryNeverWarning (a : Archive) (j : PassJson) (now : Int)
    (r : ValidationResult) (hr : r ∈ allResults (validatePass a j now))
    (hm : r.mandatory = true) :
    r.status = Status.success ∨ r.status = Status.error := by
  have h : (allResults (validatePass a j now)).all mandatoryOk = true := by
    simp only [allResults, validatePass, List.all_append,
      structResults_mandatoryOk, keysResults_mandatoryOk,
      sigResults_mandatoryOk, Bool.and_self]
  rw [List.all_eq_true] at h
  have h2 := h r hr
  simp only [mandatoryOk, hm, Bool.not_true, Bool.false_or,
    Bool.or_eq_true, beq_iff_eq] at h2
  exact h2

/-- Witness for C9 at a concrete report and mandatory result. -/
theorem C9_mandatoryNeverWarning_witness :
    ({ label := "Has manifest.json file", status := Status.success,
       mandatory := true } : ValidationResult) ∈
        allResults (validatePass archiveOk jsonOk 100) ∧
    (({ label := "Has manifest.json file", status := Status.success,
        mandatory := true } : ValidationResult).status = Status.success ∨
     ({ label := "Has manifest.json file", status := Status.success,
        mandatory := true } : ValidationResult).status = Status.error) :=
  ⟨by decide, C9_mandatoryNeverWarning archiveOk jsonOk 100 _ (by decide) rfl⟩

end PkpassViewer
